import Mathlib

/-!
Verification of the E-Commerce API test-suite helpers
(`src/utils/api_helpers.py` and `src/setup.py`) against their
natural-language specification.

The Python code is shallowly embedded: Python `dict`s become ordered
association lists with dict-semantics update/delete/lookup, JSON documents
become an inductive `Json` type, HTTP responses become a record carrying the
status code and the outcome of `.json()` parsing, exceptions become
`Except`/`Option` results, and the mutable `APIClient` object becomes a
record threaded through the operations.
-/

/-! ## Python dict primitives (ordered mapping semantics) -/

/-- `d[k]`-style lookup: the value of the first binding of `k`, if any. -/
def dlookup {α : Type} (d : List (String × α)) (k : String) : Option α :=
  (d.find? (fun p => p.1 == k)).map (fun p => p.2)

/-- `d[k] = v`: overwrite the first binding of `k` in place when present
(keeping insertion order, as Python dicts do), else append it at the end. -/
def dset {α : Type} : List (String × α) → String → α → List (String × α)
  | [], k, v => [(k, v)]
  | p :: t, k, v => if p.1 == k then (k, v) :: t else p :: dset t k v

/-- `del d[k]`: remove the binding(s) of `k`. -/
def ddel {α : Type} (d : List (String × α)) (k : String) : List (String × α) :=
  d.filter (fun p => p.1 != k)

theorem dlookup_dset_self {α : Type} (d : List (String × α)) (k : String) (v : α) :
    dlookup (dset d k v) k = some v := by
  induction d with
  | nil => simp [dset, dlookup, List.find?]
  | cons p t ih =>
    by_cases hp : (p.1 == k) = true
    · simp [dset, hp, dlookup, List.find?]
    · simp only [Bool.not_eq_true] at hp
      simp only [dset, hp, if_false]
      simpa [dlookup, List.find?, hp] using ih

theorem dlookup_dset_ne {α : Type} (d : List (String × α)) (k k' : String) (v : α)
    (hne : k' ≠ k) : dlookup (dset d k v) k' = dlookup d k' := by
  have hkk : (k == k') = false := by
    simp only [beq_eq_false_iff_ne, ne_eq]
    exact fun hc => hne hc.symm
  induction d with
  | nil => simp [dset, dlookup, List.find?, hkk]
  | cons p t ih =>
    by_cases hp : (p.1 == k) = true
    · have hpk : p.1 = k := eq_of_beq hp
      have hp' : (p.1 == k') = false := by rw [hpk]; exact hkk
      simp [dset, hp, dlookup, List.find?, hkk, hp']
    · simp only [Bool.not_eq_true] at hp
      by_cases hq : (p.1 == k') = true
      · simp [dset, hp, dlookup, List.find?, hq]
      · simp only [Bool.not_eq_true] at hq
        simpa [dset, hp, dlookup, List.find?, hq] using ih

theorem dlookup_ddel_self {α : Type} (d : List (String × α)) (k : String) :
    dlookup (ddel d k) k = none := by
  have hnone : (ddel d k).find? (fun p => p.1 == k) = none := by
    rw [List.find?_eq_none]
    intro x hx hc
    have hkept := List.of_mem_filter hx
    simp only [bne_iff_ne, ne_eq] at hkept
    exact hkept (eq_of_beq hc)
  simp [dlookup, hnone]

theorem dlookup_ddel_ne {α : Type} (d : List (String × α)) (k k' : String)
    (hne : k' ≠ k) : dlookup (ddel d k) k' = dlookup d k' := by
  induction d with
  | nil => rfl
  | cons p t ih =>
    by_cases hp : (p.1 != k) = true
    · by_cases hq : (p.1 == k') = true
      · simp [ddel, List.filter_cons, hp, dlookup, List.find?, hq]
      · simp only [Bool.not_eq_true] at hq
        simpa [ddel, List.filter_cons, hp, dlookup, List.find?, hq] using ih
    · have hpk : p.1 = k := by
        simp only [bne_iff_ne, ne_eq, Bool.not_eq_true, decide_eq_false_iff_not,
          Decidable.not_not] at hp
        exact hp
      have hp'k : (p.1 == k') = false := by
        simp only [beq_eq_false_iff_ne, ne_eq, hpk]
        exact fun hc => hne hc.symm
      simp only [Bool.not_eq_true] at hp
      simpa [ddel, List.filter_cons, hp, dlookup, List.find?, hp'k] using ih

/-! ## JSON documents and Python value semantics -/

/-- A parsed JSON document, as `response.json()` / `json.load` produce it.
`num` keeps an integer payload (the fixture and API bodies the claims touch
carry no fractional values the claims depend on). -/
inductive Json where
  | null
  | bool (b : Bool)
  | num (n : Int)
  | str (s : String)
  | arr (elems : List Json)
  | obj (fields : List (String × Json))

/-- Python `str()` of a value (`f"Bearer {token}"`, `len(str(value))`).
Exact on the scalar shapes (`None`, booleans, integers, strings); container
rendering recurses elementwise, abbreviating the quoting `repr` adds around
nested strings, which no claim depends on. -/
def pyStr : Json → String
  | .null => "None"
  | .bool true => "True"
  | .bool false => "False"
  | .num n => toString n
  | .str s => s
  | .arr xs => "[" ++ ", ".intercalate (xs.attach.map (fun x => pyStr x.1)) ++ "]"
  | .obj fs => "\x7b" ++ ", ".intercalate
      (fs.attach.map (fun f => f.1.1 ++ ": " ++ pyStr f.1.2)) ++ "\x7d"
decreasing_by
  · have h := List.sizeOf_lt_of_mem x.2
    simp only [Json.arr.sizeOf_spec]
    omega
  · have h := List.sizeOf_lt_of_mem f.2
    obtain ⟨⟨a, b⟩, hf⟩ := f
    simp only [Json.obj.sizeOf_spec, Prod.mk.sizeOf_spec] at *
    omega

/-- List-of-characters prefix test (kernel-reducible). -/
def charsPrefix : List Char → List Char → Bool
  | [], _ => true
  | _ :: _, [] => false
  | a :: as, b :: bs => a == b && charsPrefix as bs

/-- Python substring membership `sub in s` on strings. -/
def strContainsSub (s sub : String) : Bool :=
  (List.range (s.data.length + 1)).any (fun i => charsPrefix sub.data (s.data.drop i))

/-- Python `==` between a value and a string: equal only to the equal string
(`in` on lists compares elements this way). -/
def jsonEqStr (j : Json) (s : String) : Bool :=
  match j with
  | .str t => t == s
  | _ => false

/-- Python `key in data` on a parsed JSON value: key membership for a dict,
element membership for a list, substring membership for a string, and a
`TypeError` (modelled as `.error`) for the remaining shapes. -/
def pyContains (data : Json) (key : String) : Except String Bool :=
  match data with
  | .obj fs => .ok (fs.any (fun p => p.1 == key))
  | .arr xs => .ok (xs.any (fun j => jsonEqStr j key))
  | .str s => .ok (strContainsSub s key)
  | .null => .error "TypeError: argument of type NoneType is not iterable"
  | .bool _ => .error "TypeError: argument of type bool is not iterable"
  | .num _ => .error "TypeError: argument of type int is not iterable"

/-- Python `data[key]` with a string key: dict lookup (`KeyError` when the
key is absent), `TypeError` for every other shape. -/
def pyIndex (data : Json) (key : String) : Except String Json :=
  match data with
  | .obj fs =>
    match dlookup fs key with
    | some v => .ok v
    | none => .error ("KeyError: " ++ key)
  | .arr _ => .error "TypeError: list indices must be integers or slices, not str"
  | .str _ => .error "TypeError: string indices must be integers"
  | .null => .error "TypeError: NoneType is not subscriptable"
  | .bool _ => .error "TypeError: bool is not subscriptable"
  | .num _ => .error "TypeError: int is not subscriptable"

/-! ## HTTP responses -/

/-- An HTTP response as the helpers observe it: the status code, whether
`response.content` is non-empty (truthy), and what `response.json()` does —
either a parsed document or a raised `json.JSONDecodeError` (`.error`). -/
structure HResponse where
  status : Nat
  hasContent : Bool
  jsonResult : Except String Json

/-! ## APIClient (`src/utils/api_helpers.py`, class APIClient) -/

/-- `base_url.rstrip('/')`: drop every trailing slash. -/
def rstripSlashes (s : String) : String :=
  String.mk ((s.data.reverse.dropWhile (fun c => c == '/')).reverse)

/-- The retry strategy's `total=3`. -/
def retry_total : Nat := 3

/-- The retry strategy's `backoff_factor=1`. -/
def backoff_factor : Nat := 1

/-- The retry strategy's `status_forcelist`. -/
def status_forcelist : List Nat := [429, 500, 502, 503, 504]

/-- The retry strategy's `method_whitelist` (note: `PATCH` is absent). -/
def method_whitelist : List String := ["HEAD", "GET", "OPTIONS", "POST", "PUT", "DELETE"]

/-- The five verb methods the client exposes (`get`/`post`/`put`/`delete`/`patch`). -/
def exposed_verbs : List String := ["GET", "POST", "PUT", "DELETE", "PATCH"]

/-- Whether a response status triggers a retry for a method: the configured
strategy retries exactly the whitelisted methods on exactly the forcelisted
statuses. -/
def is_retry (method : String) (status : Nat) : Bool :=
  method_whitelist.contains method && status_forcelist.contains status

/-- Modelled from the spec: the retry engine itself (urllib3 `Retry` driven
through `HTTPAdapter`) is not part of this repository — the code only
configures it. Per the spec, a response whose method/status pair triggers
the strategy is retried until the configured total is exhausted, after which
the final response is returned to the caller. `transport n` is the status
the n-th attempt comes back with; the result is (final status, number of
retries performed). -/
def retrySend (method : String) (transport : Nat → Nat) : Nat → Nat → Nat × Nat
  | attempt, 0 => (transport attempt, attempt)
  | attempt, remaining + 1 =>
    if is_retry method (transport attempt) then retrySend method transport (attempt + 1) remaining
    else (transport attempt, attempt)

/-- One verb call as the configured session executes it: up to `retry_total`
retries. -/
def sendWithRetry (method : String) (transport : Nat → Nat) : Nat × Nat :=
  retrySend method transport 0 retry_total

/-- The default headers `__init__` installs on the session. -/
def default_headers : List (String × String) :=
  [("Content-Type", "application/json"),
   ("Accept", "application/json"),
   ("User-Agent", "EcommerceTestSuite/1.0")]

/-- The mutable state of an `APIClient`: base URL, timeout, the session's
header dict, and the stored `auth_token` (a Python value, `None` when
absent). -/
structure APIClient where
  base_url : String
  timeout : Nat
  headers : List (String × String)
  auth_token : Option Json

namespace APIClient

/-- `APIClient.__init__`: normalized base URL, default timeout 30, no token,
default headers. -/
def init (base_url : String) (timeout : Nat := 30) : APIClient :=
  { base_url := rstripSlashes base_url
    timeout := timeout
    headers := default_headers
    auth_token := none }

/-- `set_auth_token`: store the token and install the bearer header. -/
def set_auth_token (c : APIClient) (token : Json) : APIClient :=
  { c with
    auth_token := some token
    headers := dset c.headers "Authorization" ("Bearer " ++ pyStr token) }

/-- `clear_auth_token`: drop the token; delete the header if present. -/
def clear_auth_token (c : APIClient) : APIClient :=
  { c with
    auth_token := none
    headers :=
      if (dlookup c.headers "Authorization").isSome then ddel c.headers "Authorization"
      else c.headers }

/-- The outgoing request `APIClient.request` hands to the session. -/
structure Request where
  method : String
  url : String
  headers : List (String × String)
  timeout : Nat

/-- `APIClient.request`: build the absolute URL, default the timeout, send
through the session with the session's headers. It reads but never writes
the client's state, so the unchanged client is returned alongside. -/
def request (c : APIClient) (method endpoint : String) : APIClient × Request :=
  (c, { method := method
        url := c.base_url ++ endpoint
        headers := c.headers
        timeout := c.timeout })

/-- `APIClient.get`. -/
def get (c : APIClient) (endpoint : String) : APIClient × Request :=
  c.request "GET" endpoint

/-- `APIClient.post`. -/
def post (c : APIClient) (endpoint : String) : APIClient × Request :=
  c.request "POST" endpoint

/-- `APIClient.put`. -/
def put (c : APIClient) (endpoint : String) : APIClient × Request :=
  c.request "PUT" endpoint

/-- `APIClient.delete`. -/
def delete (c : APIClient) (endpoint : String) : APIClient × Request :=
  c.request "DELETE" endpoint

/-- `APIClient.patch`. -/
def patch (c : APIClient) (endpoint : String) : APIClient × Request :=
  c.request "PATCH" endpoint

end APIClient

/-! ## AuthHelper (`src/utils/api_helpers.py`, class AuthHelper) -/

namespace AuthHelper

/-- The outcome of the `POST` the helper issues: a response, or a raised
exception carrying its message. -/
def PostOutcome : Type := Except String HResponse

/-- `response.json() if response.content else {}` — the line of `login`
that builds `response_data`. -/
def loginBody (r : HResponse) : Except String Json :=
  if r.hasContent then r.jsonResult else .ok (.obj [])

/-- `AuthHelper.login`: posts the credentials; on HTTP 200 with a `token`
field, stores the token on the client and reports success with the parsed
body; otherwise reports failure with the body that was returned; any raised
exception is caught and reported as `(False, {'error': str(e)})`.
The network outcome of the post is the `postResult` argument; the result is
(success flag, response data, client afterwards). -/
def login (c : APIClient) (postResult : Except String HResponse) :
    Bool × Json × APIClient :=
  match postResult with
  | .error e => (false, .obj [("error", .str e)], c)
  | .ok response =>
    match loginBody response with
    | .error e => (false, .obj [("error", .str e)], c)
    | .ok response_data =>
      if response.status == 200 then
        match pyContains response_data "token" with
        | .error e => (false, .obj [("error", .str e)], c)
        | .ok true =>
          match pyIndex response_data "token" with
          | .error e => (false, .obj [("error", .str e)], c)
          | .ok tok => (true, response_data, c.set_auth_token tok)
        | .ok false => (false, response_data, c)
      else (false, response_data, c)

/-- `AuthHelper.logout`: posts to the logout endpoint; when a response comes
back, clears the client's token and reports success iff the status is 200
or 204; a raised exception is caught and reported as `False` — note the
clearing happens after the post, so it is skipped when the post raises. -/
def logout (c : APIClient) (postResult : Except String HResponse) :
    Bool × APIClient :=
  match postResult with
  | .error _ => (false, c)
  | .ok response => (([200, 204].contains response.status), c.clear_auth_token)

end AuthHelper

/-! ## ResponseValidator (`src/utils/api_helpers.py`, class ResponseValidator) -/

namespace ResponseValidator

/-- `validate_status_code`: exact status comparison; the body is never
inspected. -/
def validate_status_code (r : HResponse) (expected_status : Nat) : Bool :=
  r.status == expected_status

/-- `validate_json_response`: true iff `response.json()` parses
(`json.JSONDecodeError` is caught and yields false). -/
def validate_json_response (r : HResponse) : Bool :=
  match r.jsonResult with
  | .ok _ => true
  | .error _ => false

/-- `all(field in data for field in required_fields)`: short-circuiting
conjunction of Python membership tests, any of which may raise. -/
def allFieldsIn (data : Json) : List String → Except String Bool
  | [] => .ok true
  | f :: rest =>
    match pyContains data f with
    | .error e => .error e
    | .ok false => .ok false
    | .ok true => allFieldsIn data rest

/-- `validate_response_schema`: all required fields present; both
`json.JSONDecodeError` and `TypeError` are caught and yield false. -/
def validate_response_schema (r : HResponse) (required_fields : List String) : Bool :=
  match r.jsonResult with
  | .error _ => false
  | .ok data =>
    match allFieldsIn data required_fields with
    | .error _ => false
    | .ok b => b

/-- `validate_error_response`: for an error status the body must parse
(`json.JSONDecodeError` caught as false) and satisfy
`'error' in data or 'message' in data` — a membership test that can itself
raise `TypeError`, which is NOT caught; any status below 400 is accepted. -/
def validate_error_response (r : HResponse) : Except String Bool :=
  if 400 ≤ r.status then
    match r.jsonResult with
    | .error _ => .ok false
    | .ok data =>
      match pyContains data "error" with
      | .error e => .error e
      | .ok true => .ok true
      | .ok false => pyContains data "message"
  else .ok true

end ResponseValidator

/-! ## TestDataLoader (`src/utils/api_helpers.py`, class TestDataLoader) -/

namespace TestDataLoader

/-- What `open(file_path, 'r')` followed by `json.load(file)` can do at a
path: `open` raises `FileNotFoundError` (`missing`) or another `OSError`
such as `IsADirectoryError`/`PermissionError` (`openError`); `json.load`
raises `UnicodeDecodeError` while reading bytes that are not UTF-8
(`decodeError`) or `json.JSONDecodeError` on text that is not JSON
(`badJson`); or the parse succeeds with a document (`ok`). -/
inductive FileOutcome where
  | missing
  | openError (msg : String)
  | decodeError (msg : String)
  | badJson (msg : String)
  | ok (doc : Json)

def FileSystem : Type := String → FileOutcome

/-- `TestDataLoader.load_test_data`: only `FileNotFoundError` and
`json.JSONDecodeError` are caught (logged and replaced by the empty dict);
every other exception of opening or decoding — `IsADirectoryError`,
`PermissionError`, `UnicodeDecodeError` — propagates to the caller
(`.error`); a readable, well-formed file yields its parsed document. -/
def load_test_data (fs : FileSystem) (file_path : String) : Except String Json :=
  match fs file_path with
  | .missing => .ok (.obj [])
  | .openError e => .error e
  | .decodeError e => .error e
  | .badJson _ => .ok (.obj [])
  | .ok doc => .ok doc

end TestDataLoader

/-! ## Setup script (`src/setup.py`) -/

namespace Setup

/-- What one provisioning step does when called: return a boolean, or raise. -/
inductive StepResult where
  | ret (b : Bool)
  | exn (msg : String)

/-- A step failed when it returned `False` or raised (both paths append the
step's name to `failed_steps` in `main`). -/
def stepFailed : StepResult → Bool
  | .ret b => !b
  | .exn _ => true

/-- The seven steps of `main`, in order. -/
def setup_steps : List String :=
  ["Checking Python version", "Creating virtual environment", "Installing dependencies",
   "Creating .env file", "Creating reports directory", "Validating test data",
   "Running sample test"]

/-- The `for step_name, step_function in steps` loop of `main`: every step is
attempted, and the names of the failed ones are collected in order. -/
def runSteps (outcomes : List (String × StepResult)) : List String :=
  outcomes.foldl (fun acc p => if stepFailed p.2 then acc ++ [p.1] else acc) []

/-- The exit code of `main`: `sys.exit(1)` when `failed_steps` is non-empty,
else the script falls through and exits 0. -/
def mainExitCode (outcomes : List (String × StepResult)) : Nat :=
  if (runSteps outcomes).isEmpty then 0 else 1

/-- `main` with the outcome of each named step abstracted: runs the seven
steps in order and exits by `mainExitCode`. -/
def main (outcome : String → StepResult) : Nat :=
  mainExitCode (setup_steps.map (fun n => (n, outcome n)))

end Setup

/-! ## mask_sensitive_data (`src/utils/api_helpers.py`, module level) -/

/-- The default `sensitive_fields`. -/
def default_sensitive_fields : List String := ["password", "token", "card_number", "cvv"]

/-- A string of `n` asterisks: `'*' * n`. -/
def stars (n : Nat) : String := String.mk (List.replicate n '*')

/-- The loop body of `mask_sensitive_data`: `if field in masked_data:
masked_data[field] = '*' * len(str(masked_data[field]))`. -/
def maskStep (m : List (String × Json)) (field : String) : List (String × Json) :=
  if m.any (fun p => p.1 == field) then
    dset m field (.str (stars (pyStr ((dlookup m field).getD .null)).length))
  else m

/-- `mask_sensitive_data`: works on a copy of the input dict (`data.copy()`),
masking each sensitive field present; `none` for `sensitive_fields` selects
the default list. -/
def mask_sensitive_data (data : List (String × Json))
    (sensitive_fields : Option (List String) := none) : List (String × Json) :=
  (sensitive_fields.getD default_sensitive_fields).foldl maskStep data

/-! ## The token/header invariant (claim C7) -/

/-- The stored `auth_token` is `None` exactly when the session carries no
`Authorization` header, and a string token is reflected as a
`Bearer <token>` header. -/
def tokenHeaderInv (c : APIClient) : Prop :=
  (c.auth_token = none ↔ dlookup c.headers "Authorization" = none) ∧
  (∀ t : String, c.auth_token = some (.str t) →
      dlookup c.headers "Authorization" = some ("Bearer " ++ t))

/-! ## Helper lemmas -/

theorem pyStr_str (s : String) : pyStr (.str s) = s := by simp [pyStr]

theorem stars_length (n : Nat) : (stars n).length = n := by
  simp [stars, String.length]

theorem any_key_iff_isSome {α : Type} (d : List (String × α)) (k : String) :
    d.any (fun p => p.1 == k) = true ↔ (dlookup d k).isSome := by
  rw [dlookup, Option.isSome_map', List.find?_isSome, List.any_eq_true]

theorem clear_auth_token_lookup (c : APIClient) :
    dlookup c.clear_auth_token.headers "Authorization" = none := by
  unfold APIClient.clear_auth_token
  by_cases h : (dlookup c.headers "Authorization").isSome
  · simp only [h, if_true]
    exact dlookup_ddel_self c.headers "Authorization"
  · rw [if_neg h]
    exact Option.not_isSome_iff_eq_none.mp h

theorem clear_auth_token_lookup_ne (c : APIClient) (k : String)
    (hk : k ≠ "Authorization") :
    dlookup c.clear_auth_token.headers k = dlookup c.headers k := by
  unfold APIClient.clear_auth_token
  by_cases h : (dlookup c.headers "Authorization").isSome
  · simp only [h, if_true]
    exact dlookup_ddel_ne c.headers "Authorization" k hk
  · rw [if_neg h]

/-- C5: after `clear_auth_token` the session carries no `Authorization`
header, every other header is unchanged, and every request issued afterwards
(which sends the session's headers) omits `Authorization` — and keeps
omitting it, since `request` never alters the header dict. -/
theorem C5_clear_auth_token_frame (c : APIClient) :
    dlookup c.clear_auth_token.headers "Authorization" = none ∧
    (∀ k, k ≠ "Authorization" →
        dlookup c.clear_auth_token.headers k = dlookup c.headers k) ∧
    (∀ m e, dlookup (c.clear_auth_token.request m e).2.headers "Authorization" = none) ∧
    (∀ m e, (c.clear_auth_token.request m e).1 = c.clear_auth_token) ∧
    (∀ c' : APIClient, dlookup c'.headers "Authorization" = none →
        ∀ m e, dlookup (c'.request m e).2.headers "Authorization" = none) := by
  refine ⟨clear_auth_token_lookup c, fun k hk => clear_auth_token_lookup_ne c k hk,
    fun m e => clear_auth_token_lookup c, fun m e => rfl, fun c' h m e => h⟩

/-- Witness for C5 at a concrete authenticated client. -/
theorem C5_clear_auth_token_frame_witness :
    dlookup ((APIClient.init "http://a" 30).set_auth_token
        (.str "tk")).clear_auth_token.headers "Authorization" = none ∧
    dlookup ((APIClient.init "http://a" 30).set_auth_token
        (.str "tk")).clear_auth_token.headers "Accept"
      = dlookup ((APIClient.init "http://a" 30).set_auth_token (.str "tk")).headers "Accept" :=
  ⟨(C5_clear_auth_token_frame _).1,
   (C5_clear_auth_token_frame _).2.1 "Accept" (by decide)⟩

/-- C7: the token/header invariant holds after construction and is preserved
by `set_auth_token`, `clear_auth_token`, `request`, and every verb method. -/
theorem C7_token_header_invariant :
    (∀ u timeout, tokenHeaderInv (APIClient.init u timeout)) ∧
    (∀ (c : APIClient) (tok : Json), tokenHeaderInv c → tokenHeaderInv (c.set_auth_token tok)) ∧
    (∀ c : APIClient, tokenHeaderInv c → tokenHeaderInv c.clear_auth_token) ∧
    (∀ (c : APIClient) (m e : String), tokenHeaderInv c → tokenHeaderInv (c.request m e).1) ∧
    (∀ (c : APIClient) (e : String), tokenHeaderInv c →
      tokenHeaderInv (c.get e).1 ∧ tokenHeaderInv (c.post e).1 ∧
      tokenHeaderInv (c.put e).1 ∧ tokenHeaderInv (c.delete e).1 ∧
      tokenHeaderInv (c.patch e).1) := by
  have hset : ∀ (c : APIClient) (tok : Json), tokenHeaderInv (c.set_auth_token tok) := by
    intro c tok
    constructor
    · rw [show (c.set_auth_token tok).auth_token = some tok from rfl]
      rw [show (c.set_auth_token tok).headers
            = dset c.headers "Authorization" ("Bearer " ++ pyStr tok) from rfl]
      rw [dlookup_dset_self]
      simp
    · intro t ht
      have htok : tok = .str t := by
        have := ht
        rw [show (c.set_auth_token tok).auth_token = some tok from rfl] at this
        exact Option.some.inj this
      subst htok
      rw [show (c.set_auth_token (.str t)).headers
            = dset c.headers "Authorization" ("Bearer " ++ pyStr (.str t)) from rfl]
      rw [dlookup_dset_self, pyStr_str]
  have hclear : ∀ c : APIClient, tokenHeaderInv c.clear_auth_token := by
    intro c
    constructor
    · rw [show c.clear_auth_token.auth_token = (none : Option Json) from rfl,
        clear_auth_token_lookup c]
      exact ⟨fun _ => rfl, fun _ => rfl⟩
    · intro t ht
      exact absurd ht (by simp [APIClient.clear_auth_token])
  refine ⟨?_, fun c tok _ => hset c tok, fun c _ => hclear c,
    fun c m e h => h, fun c e h => ⟨h, h, h, h, h⟩⟩
  intro u timeout
  constructor
  · constructor
    · intro _
      show dlookup default_headers "Authorization" = none
      decide
    · intro _
      rfl
  · intro t ht
    exact absurd ht (by simp [APIClient.init])

/-- Witness for C7 at a concrete client and token. -/
theorem C7_token_header_invariant_witness :
    tokenHeaderInv ((APIClient.init "http://api.example.com" 30).set_auth_token (.str "abc")) :=
  C7_token_header_invariant.2.1 _ (.str "abc")
    (C7_token_header_invariant.1 "http://api.example.com" 30)

/-- C6 counterexample: a path holding a file whose bytes are not UTF-8 — a
file whose contents are in particular not valid JSON — makes `json.load`
raise `UnicodeDecodeError`, which `load_test_data` catches nowhere
(only `FileNotFoundError` and `json.JSONDecodeError` are caught), so the
call raises instead of returning the empty mapping. -/
theorem C6_counterexample :
    TestDataLoader.load_test_data
        (fun _ => .decodeError "UnicodeDecodeError: invalid start byte")
        "/data/test_data.json"
      = .error "UnicodeDecodeError: invalid start byte" ∧
    ¬ TestDataLoader.load_test_data
        (fun _ => .decodeError "UnicodeDecodeError: invalid start byte")
        "/data/test_data.json"
      = .ok (.obj []) :=
  ⟨rfl, fun h => Except.noConfusion h⟩

/-- C6 (amended): `load_test_data` returns the empty mapping rather than
raising exactly for the two exceptions it catches — a missing file
(`FileNotFoundError`) and UTF-8 text that is not JSON
(`json.JSONDecodeError`); a well-formed file yields its parsed document;
but any other exception of opening or decoding the file
(`IsADirectoryError`, `PermissionError`, `UnicodeDecodeError` on non-UTF-8
bytes) propagates to the caller. -/
theorem C6_load_test_data_behaviour (fs : TestDataLoader.FileSystem) (p : String) :
    (fs p = .missing → TestDataLoader.load_test_data fs p = .ok (.obj [])) ∧
    (∀ e, fs p = .badJson e → TestDataLoader.load_test_data fs p = .ok (.obj [])) ∧
    (∀ j, fs p = .ok j → TestDataLoader.load_test_data fs p = .ok j) ∧
    (∀ e, fs p = .openError e → TestDataLoader.load_test_data fs p = .error e) ∧
    (∀ e, fs p = .decodeError e → TestDataLoader.load_test_data fs p = .error e) := by
  refine ⟨fun h => ?_, fun e h => ?_, fun j h => ?_, fun e h => ?_, fun e h => ?_⟩ <;>
    simp [TestDataLoader.load_test_data, h]

/-- Witness for C6 at concrete file systems: a missing path yields the
empty mapping, and an unreadable one propagates its error. -/
theorem C6_load_test_data_behaviour_witness :
    TestDataLoader.load_test_data (fun _ => .missing) "/missing/test_data.json"
      = .ok (.obj []) ∧
    TestDataLoader.load_test_data (fun _ => .openError "IsADirectoryError") "/data"
      = .error "IsADirectoryError" :=
  ⟨(C6_load_test_data_behaviour (fun _ => .missing) "/missing/test_data.json").1 rfl,
   (C6_load_test_data_behaviour (fun _ => .openError "IsADirectoryError") "/data").2.2.2.1
     "IsADirectoryError" rfl⟩

theorem runSteps_names (names : List String) (outcome : String → Setup.StepResult) :
    ∀ acc : List String,
    (names.map (fun n => (n, outcome n))).foldl
        (fun acc p => if Setup.stepFailed p.2 then acc ++ [p.1] else acc) acc
      = acc ++ names.filter (fun n => Setup.stepFailed (outcome n)) := by
  induction names with
  | nil => intro acc; simp
  | cons n t ih =>
    intro acc
    by_cases h : Setup.stepFailed (outcome n) = true
    · simp only [List.map_cons, List.foldl_cons, h, if_true, List.filter_cons, ih]
      simp [List.append_assoc]
    · simp only [Bool.not_eq_true] at h
      simp only [List.map_cons, List.foldl_cons, h, Bool.false_eq_true, if_false,
        List.filter_cons, ih]

/-- C9: the setup script's `main` attempts every one of its seven steps,
collects the ones that returned `False` or raised, and exits 0 exactly when
none failed, 1 otherwise. -/
theorem C9_setup_exit_code (outcome : String → Setup.StepResult) :
    Setup.setup_steps.length = 7 ∧
    (Setup.main outcome = 0 ↔ ∀ n ∈ Setup.setup_steps, Setup.stepFailed (outcome n) = false) ∧
    (Setup.main outcome = 1 ↔ ∃ n ∈ Setup.setup_steps, Setup.stepFailed (outcome n) = true) ∧
    Setup.runSteps (Setup.setup_steps.map (fun n => (n, outcome n)))
      = Setup.setup_steps.filter (fun n => Setup.stepFailed (outcome n)) := by
  have hrun : Setup.runSteps (Setup.setup_steps.map (fun n => (n, outcome n)))
      = Setup.setup_steps.filter (fun n => Setup.stepFailed (outcome n)) := by
    simpa [Setup.runSteps] using runSteps_names Setup.setup_steps outcome []
  have hmain : Setup.main outcome
      = if (Setup.setup_steps.filter (fun n => Setup.stepFailed (outcome n))).isEmpty
        then 0 else 1 := by
    rw [Setup.main, Setup.mainExitCode, hrun]
  have hempty : (Setup.setup_steps.filter (fun n => Setup.stepFailed (outcome n))).isEmpty = true
      ↔ ∀ n ∈ Setup.setup_steps, Setup.stepFailed (outcome n) = false := by
    rw [List.isEmpty_iff, List.filter_eq_nil_iff]
    constructor
    · intro h n hn
      have := h n hn
      simpa using this
    · intro h n hn
      simp [h n hn]
  refine ⟨rfl, ?_, ?_, hrun⟩
  · rw [hmain]
    cases hE : (Setup.setup_steps.filter (fun n => Setup.stepFailed (outcome n))).isEmpty with
    | true =>
      rw [if_pos rfl]
      exact ⟨fun _ => hempty.mp hE, fun _ => rfl⟩
    | false =>
      rw [if_neg Bool.false_ne_true]
      constructor
      · intro h10
        exact absurd h10 one_ne_zero
      · intro hall
        rw [hempty.mpr hall] at hE
        exact Bool.noConfusion hE
  · rw [hmain]
    cases hE : (Setup.setup_steps.filter (fun n => Setup.stepFailed (outcome n))).isEmpty with
    | true =>
      rw [if_pos rfl]
      constructor
      · intro h01
        exact absurd h01 zero_ne_one
      · rintro ⟨n, hn, hfail⟩
        have hF := hempty.mp hE n hn
        rw [hF] at hfail
        exact Bool.noConfusion hfail
    | false =>
      rw [if_neg Bool.false_ne_true]
      refine ⟨fun _ => ?_, fun _ => rfl⟩
      by_contra hno
      push_neg at hno
      have hAll : ∀ n ∈ Setup.setup_steps, Setup.stepFailed (outcome n) = false := by
        intro n hn
        have := hno n hn
        simpa using this
      rw [hempty.mpr hAll] at hE
      exact Bool.noConfusion hE

/-- Witness for C9: with every step succeeding the exit code is 0. -/
theorem C9_setup_exit_code_witness : Setup.main (fun _ => .ret true) = 0 :=
  (C9_setup_exit_code (fun _ => .ret true)).2.1.mpr (fun _ _ => rfl)

/-- C3 counterexample: when the logout POST raises, the `except` branch is
taken before `clear_auth_token` ever runs, so the token survives — the
claim's "unconditionally clears ... or a raised exception" is false. -/
theorem C3_counterexample :
    (AuthHelper.logout ((APIClient.init "http://a" 30).set_auth_token (.str "tok"))
        (.error "ConnectionError")).2.auth_token = some (.str "tok") ∧
    ¬ (AuthHelper.logout ((APIClient.init "http://a" 30).set_auth_token (.str "tok"))
        (.error "ConnectionError")).2.auth_token = none :=
  ⟨rfl, fun h => Option.noConfusion h⟩

/-- C3 (amended): whenever the POST returns a response — any status — the
local token is cleared and the result is `clear_auth_token`'s state; success
is reported iff the status is 200 or 204; when the POST raises, `logout`
returns `False` and the client (token included) is left untouched. -/
theorem C3_logout_behaviour (c : APIClient) (r : HResponse) :
    (AuthHelper.logout c (.ok r)).2 = c.clear_auth_token ∧
    (AuthHelper.logout c (.ok r)).2.auth_token = none ∧
    ((AuthHelper.logout c (.ok r)).1 = true ↔ r.status = 200 ∨ r.status = 204) ∧
    (∀ e, AuthHelper.logout c (.error e) = (false, c)) := by
  refine ⟨rfl, rfl, ?_, fun e => rfl⟩
  show ([200, 204].contains r.status = true) ↔ r.status = 200 ∨ r.status = 204
  simp [List.contains]

/-- C4 counterexample: a 500 response whose body is the valid JSON number 3
parses fine and carries neither an `error` nor a `message` field, yet
`validate_error_response` does not return false — the uncaught membership
test `'error' in 3` raises `TypeError`. -/
theorem C4_counterexample :
    ResponseValidator.validate_error_response ⟨500, true, .ok (.num 3)⟩
        = .error "TypeError: argument of type int is not iterable" ∧
    ¬ ResponseValidator.validate_error_response ⟨500, true, .ok (.num 3)⟩ = .ok false :=
  ⟨rfl, fun h => Except.noConfusion h⟩

/-- C4 (amended): any status below 400 is accepted regardless of body; for a
status of 400 or more an unparseable body yields false, an object body
yields exactly "has an `error` or `message` key", and a non-container body
such as a number makes the uncaught Python membership test raise
`TypeError`. -/
theorem C4_validate_error_response (r : HResponse) :
    (r.status < 400 → ResponseValidator.validate_error_response r = .ok true) ∧
    (400 ≤ r.status → ∀ e, r.jsonResult = .error e →
        ResponseValidator.validate_error_response r = .ok false) ∧
    (400 ≤ r.status → ∀ fs, r.jsonResult = .ok (.obj fs) →
        ResponseValidator.validate_error_response r
          = .ok (fs.any (fun p => p.1 == "error") || fs.any (fun p => p.1 == "message"))) ∧
    (400 ≤ r.status → ∀ n, r.jsonResult = .ok (.num n) →
        ResponseValidator.validate_error_response r
          = .error "TypeError: argument of type int is not iterable") := by
  refine ⟨fun h => ?_, fun h e he => ?_, fun h fs hfs => ?_, fun h n hn => ?_⟩
  · rw [ResponseValidator.validate_error_response, if_neg (by omega)]
  · rw [ResponseValidator.validate_error_response, if_pos h, he]
  · rw [ResponseValidator.validate_error_response, if_pos h, hfs]
    cases hA : fs.any (fun p => p.1 == "error") with
    | true => simp [pyContains, hA]
    | false => simp [pyContains, hA]
  · rw [ResponseValidator.validate_error_response, if_pos h, hn]
    rfl

/-- Witness for C4 at concrete responses. -/
theorem C4_validate_error_response_witness :
    ResponseValidator.validate_error_response ⟨200, true, .error "Expecting value"⟩ = .ok true ∧
    ResponseValidator.validate_error_response ⟨500, true, .error "Expecting value"⟩ = .ok false ∧
    ResponseValidator.validate_error_response
        ⟨404, true, .ok (.obj [("error", .str "not found")])⟩
      = .ok ([("error", Json.str "not found")].any (fun p => p.1 == "error")
          || [("error", Json.str "not found")].any (fun p => p.1 == "message")) :=
  ⟨(C4_validate_error_response ⟨200, true, .error "Expecting value"⟩).1 (by decide),
   (C4_validate_error_response ⟨500, true, .error "Expecting value"⟩).2.1 (by decide)
     "Expecting value" rfl,
   (C4_validate_error_response ⟨404, true, .ok (.obj [("error", .str "not found")])⟩).2.2.1
     (by decide) [("error", .str "not found")] rfl⟩

/-- C8 counterexample: on a response whose body fails to parse,
`validate_status_code` does not return false — it never inspects the body
and returns true when the status matches. -/
theorem C8_counterexample :
    ResponseValidator.validate_status_code ⟨200, true, .error "Expecting value"⟩ 200 = true ∧
    ResponseValidator.validate_error_response ⟨200, true, .error "Expecting value"⟩ = .ok true :=
  ⟨rfl, rfl⟩

/-- C8 (amended): on a response whose body fails to parse as JSON, none of
the four predicates raises: `validate_json_response` and
`validate_response_schema` return false, `validate_error_response` returns
false for an error status and true below 400, and `validate_status_code`
ignores the body, returning the bare status comparison. -/
theorem C8_validators_on_unparseable (st : Nat) (hc : Bool) (e : String)
    (expected : Nat) (fields : List String) :
    ResponseValidator.validate_json_response ⟨st, hc, .error e⟩ = false ∧
    ResponseValidator.validate_response_schema ⟨st, hc, .error e⟩ fields = false ∧
    (400 ≤ st → ResponseValidator.validate_error_response ⟨st, hc, .error e⟩ = .ok false) ∧
    (st < 400 → ResponseValidator.validate_error_response ⟨st, hc, .error e⟩ = .ok true) ∧
    ResponseValidator.validate_status_code ⟨st, hc, .error e⟩ expected = (st == expected) := by
  refine ⟨rfl, rfl, fun h => ?_, fun h => ?_, rfl⟩
  · rw [ResponseValidator.validate_error_response, if_pos h]
  · rw [ResponseValidator.validate_error_response, if_neg (show ¬ 400 ≤ st by omega)]

/-- Witness for C8 at a concrete unparseable response. -/
theorem C8_validators_on_unparseable_witness :
    ResponseValidator.validate_json_response ⟨503, true, .error "Expecting value"⟩ = false ∧
    ResponseValidator.validate_error_response ⟨503, true, .error "Expecting value"⟩ = .ok false ∧
    ResponseValidator.validate_error_response ⟨200, true, .error "Expecting value"⟩ = .ok true :=
  ⟨(C8_validators_on_unparseable 503 true "Expecting value" 200 []).1,
   (C8_validators_on_unparseable 503 true "Expecting value" 200 []).2.2.1 (by decide),
   (C8_validators_on_unparseable 200 true "Expecting value" 200 []).2.2.2.1 (by decide)⟩

theorem retrySend_spec (m : String) (t : Nat → Nat) : ∀ rem att : Nat,
    att ≤ (retrySend m t att rem).2 ∧
    (retrySend m t att rem).2 ≤ att + rem ∧
    (retrySend m t att rem).1 = t (retrySend m t att rem).2 ∧
    (∀ i, att ≤ i → i < (retrySend m t att rem).2 → is_retry m (t i) = true) ∧
    ((retrySend m t att rem).2 < att + rem → is_retry m (t (retrySend m t att rem).2) = false) := by
  intro rem
  induction rem with
  | zero =>
    intro att
    have h0 : retrySend m t att 0 = (t att, att) := rfl
    rw [h0]
    exact ⟨Nat.le_refl _, by omega, rfl, fun i hi1 hi2 => absurd hi2 (by omega),
      fun hlt => absurd hlt (by omega)⟩
  | succ rem ih =>
    intro att
    cases h : is_retry m (t att) with
    | true =>
      have hstep : retrySend m t att (rem + 1) = retrySend m t (att + 1) rem := by
        rw [retrySend, h, if_pos rfl]
      obtain ⟨h1, h2, h3, h4, h5⟩ := ih (att + 1)
      rw [hstep]
      refine ⟨by omega, by omega, h3, ?_, fun hlt => h5 (by omega)⟩
      intro i hi1 hi2
      rcases Nat.eq_or_lt_of_le hi1 with heq | hlt
      · rw [← heq]
        exact h
      · exact h4 i (by omega) hi2
    | false =>
      have hstep : retrySend m t att (rem + 1) = (t att, att) := by
        rw [retrySend, h]
        simp
      rw [hstep]
      refine ⟨Nat.le_refl _, by omega, rfl, fun i hi1 hi2 => absurd hi2 (by omega), fun _ => h⟩

/-- C1 counterexample: `PATCH` is one of the exposed verb methods and 500 is
in the configured `status_forcelist`, yet a PATCH request whose every
attempt comes back 500 is never retried — `PATCH` is missing from the
configured `method_whitelist` — while the same scenario under GET is
retried the full 3 times. -/
theorem C1_counterexample :
    "PATCH" ∈ exposed_verbs ∧
    status_forcelist.contains 500 = true ∧
    is_retry "PATCH" 500 = false ∧
    (sendWithRetry "PATCH" (fun _ => 500)).2 = 0 ∧
    (sendWithRetry "GET" (fun _ => 500)).2 = 3 := by
  refine ⟨by decide, by decide, by decide, by decide, by decide⟩

/-- C1 (amended): for the exposed verbs that are in the configured
whitelist — GET, POST, PUT and DELETE — a status triggers a retry exactly
when it is in {429, 500, 502, 503, 504}; at most 3 retries (`total=3`,
`backoff_factor=1`) are performed, every retried attempt had a forcelisted
status, retrying stops as soon as a non-forcelisted status arrives, and the
final response is the one returned to the caller. PATCH, though exposed, is
never retried. -/
theorem C1_retry_policy (m : String)
    (hm : m ∈ (["GET", "POST", "PUT", "DELETE"] : List String)) :
    retry_total = 3 ∧ backoff_factor = 1 ∧
    (∀ s, is_retry m s = status_forcelist.contains s) ∧
    (∀ s, is_retry "PATCH" s = false) ∧
    (∀ transport : Nat → Nat,
      (sendWithRetry m transport).2 ≤ retry_total ∧
      (sendWithRetry m transport).1 = transport (sendWithRetry m transport).2 ∧
      (∀ i, i < (sendWithRetry m transport).2 →
          status_forcelist.contains (transport i) = true) ∧
      ((sendWithRetry m transport).2 < retry_total →
          status_forcelist.contains (transport (sendWithRetry m transport).2) = false)) := by
  have hwl : method_whitelist.contains m = true := by
    fin_cases hm <;> decide
  have hisr : ∀ s, is_retry m s = status_forcelist.contains s := by
    intro s
    rw [is_retry, hwl, Bool.true_and]
  refine ⟨rfl, rfl, hisr,
    fun s => by
      rw [is_retry, show method_whitelist.contains "PATCH" = false from by decide,
        Bool.false_and],
    ?_⟩
  intro transport
  obtain ⟨h1, h2, h3, h4, h5⟩ := retrySend_spec m transport retry_total 0
  refine ⟨by simpa [sendWithRetry] using h2, h3, ?_, ?_⟩
  · intro i hi
    have := h4 i (Nat.zero_le i) hi
    rw [hisr] at this
    exact this
  · intro hlt
    have := h5 (by simpa [sendWithRetry] using hlt)
    rw [hisr] at this
    exact this

/-- Witness for C1 at the GET verb and an always-500 transport. -/
theorem C1_retry_policy_witness :
    retry_total = 3 ∧
    is_retry "GET" 500 = status_forcelist.contains 500 ∧
    (sendWithRetry "GET" (fun _ => 500)).2 ≤ retry_total :=
  ⟨(C1_retry_policy "GET" (by decide)).1,
   (C1_retry_policy "GET" (by decide)).2.2.1 500,
   ((C1_retry_policy "GET" (by decide)).2.2.2.2 (fun _ => 500)).1⟩

/-- C2: `login` reports success exactly when a response came back with
status 200 and a parsed body that is an object carrying a `token` field; on
success it stores that token on the client and returns the parsed body; a
body lacking `token` yields failure even on status 200, with the received
body returned; a raised call (or a body whose parsing raised) yields
failure with the `{'error': <message>}` envelope and an untouched client. -/
theorem C2_login_contract (c : APIClient) (pr : Except String HResponse) :
    ((AuthHelper.login c pr).1 = true ↔
      ∃ r fs, pr = .ok r ∧ r.status = 200 ∧ AuthHelper.loginBody r = .ok (.obj fs) ∧
        (dlookup fs "token").isSome = true) ∧
    (∀ r fs v, pr = .ok r → r.status = 200 → AuthHelper.loginBody r = .ok (.obj fs) →
        dlookup fs "token" = some v →
        AuthHelper.login c pr = (true, .obj fs, c.set_auth_token v)) ∧
    (∀ r d, pr = .ok r → AuthHelper.loginBody r = .ok d → pyContains d "token" = .ok false →
        AuthHelper.login c pr = (false, d, c)) ∧
    (∀ r e, pr = .ok r → AuthHelper.loginBody r = .error e →
        AuthHelper.login c pr = (false, .obj [("error", .str e)], c)) ∧
    (∀ e, pr = .error e → AuthHelper.login c pr = (false, .obj [("error", .str e)], c)) := by
  have hsucc : ∀ r fs v, pr = .ok r → r.status = 200 →
      AuthHelper.loginBody r = .ok (.obj fs) → dlookup fs "token" = some v →
      AuthHelper.login c pr = (true, .obj fs, c.set_auth_token v) := by
    intro r fs v hpr hs hb hv
    subst hpr
    have hany : fs.any (fun p => p.1 == "token") = true :=
      (any_key_iff_isSome fs "token").mpr (by rw [hv]; rfl)
    simp [AuthHelper.login, hb, hs, pyContains, hany, pyIndex, hv]
  refine ⟨?_, hsucc, ?_, ?_, ?_⟩
  · constructor
    · intro h
      cases pr with
      | error e => simp [AuthHelper.login] at h
      | ok r =>
        cases hb : AuthHelper.loginBody r with
        | error e => simp [AuthHelper.login, hb] at h
        | ok d =>
          cases hst : (r.status == 200) with
          | false => simp [AuthHelper.login, hb, hst] at h
          | true =>
            have hs : r.status = 200 := eq_of_beq hst
            cases d with
            | obj fs =>
              cases hany : fs.any (fun p => p.1 == "token") with
              | false => simp [AuthHelper.login, hb, hst, pyContains, hany] at h
              | true =>
                exact ⟨r, fs, rfl, hs, hb,
                  (any_key_iff_isSome fs "token").mp hany⟩
            | arr xs =>
              cases hA : xs.any (fun j => jsonEqStr j "token") with
              | true => simp [AuthHelper.login, hb, hst, pyContains, pyIndex, hA] at h
              | false => simp [AuthHelper.login, hb, hst, pyContains, hA] at h
            | str s =>
              cases hS : strContainsSub s "token" with
              | true => simp [AuthHelper.login, hb, hst, pyContains, pyIndex, hS] at h
              | false => simp [AuthHelper.login, hb, hst, pyContains, hS] at h
            | null => simp [AuthHelper.login, hb, hst, pyContains] at h
            | bool b => simp [AuthHelper.login, hb, hst, pyContains] at h
            | num n => simp [AuthHelper.login, hb, hst, pyContains] at h
    · rintro ⟨r, fs, hpr, hs, hb, hsome⟩
      obtain ⟨v, hv⟩ := Option.isSome_iff_exists.mp hsome
      rw [hsucc r fs v hpr hs hb hv]
  · intro r d hpr hb hc
    subst hpr
    cases hst : (r.status == 200) with
    | false => simp [AuthHelper.login, hb, hst]
    | true => simp [AuthHelper.login, hb, hst, hc]
  · intro r e hpr hb
    subst hpr
    simp [AuthHelper.login, hb]
  · intro e hpr
    subst hpr
    rfl

/-- Witness for C2: a 200 response with a token succeeds and stores it; a
200 response without one fails with the received body. -/
theorem C2_login_contract_witness :
    AuthHelper.login (APIClient.init "http://a" 30)
        (.ok ⟨200, true, .ok (.obj [("token", .str "abc123")])⟩)
      = (true, .obj [("token", .str "abc123")],
         (APIClient.init "http://a" 30).set_auth_token (.str "abc123")) ∧
    AuthHelper.login (APIClient.init "http://a" 30)
        (.ok ⟨200, true, .ok (.obj [("user", .str "u")])⟩)
      = (false, .obj [("user", .str "u")], APIClient.init "http://a" 30) :=
  ⟨(C2_login_contract (APIClient.init "http://a" 30)
      (.ok ⟨200, true, .ok (.obj [("token", .str "abc123")])⟩)).2.1
      ⟨200, true, .ok (.obj [("token", .str "abc123")])⟩
      [("token", .str "abc123")] (.str "abc123") rfl rfl rfl rfl,
   (C2_login_contract (APIClient.init "http://a" 30)
      (.ok ⟨200, true, .ok (.obj [("user", .str "u")])⟩)).2.2.1
      ⟨200, true, .ok (.obj [("user", .str "u")])⟩
      (.obj [("user", .str "u")]) rfl rfl rfl⟩

theorem dlookup_maskStep_ne (m : List (String × Json)) (f k : String) (hk : k ≠ f) :
    dlookup (maskStep m f) k = dlookup m k := by
  rw [maskStep]
  by_cases h : m.any (fun p => p.1 == f) = true
  · rw [if_pos h]
    exact dlookup_dset_ne m f k _ hk
  · rw [if_neg h]

theorem dlookup_maskStep_self (m : List (String × Json)) (f : String) (v : Json)
    (hv : dlookup m f = some v) :
    dlookup (maskStep m f) f = some (.str (stars (pyStr v).length)) := by
  have hany : m.any (fun p => p.1 == f) = true :=
    (any_key_iff_isSome m f).mpr (by rw [hv]; rfl)
  rw [maskStep, if_pos hany, hv]
  exact dlookup_dset_self m f _

theorem maskStep_of_absent (m : List (String × Json)) (f : String)
    (hv : dlookup m f = none) : maskStep m f = m := by
  have hany : ¬ m.any (fun p => p.1 == f) = true := by
    rw [any_key_iff_isSome, hv]
    simp
  rw [maskStep, if_neg hany]

theorem maskFold_lookup : ∀ (fields : List String) (m : List (String × Json)) (k : String),
    dlookup (fields.foldl maskStep m) k =
      match dlookup m k with
      | none => none
      | some v => if fields.contains k then some (.str (stars (pyStr v).length)) else some v := by
  intro fields
  induction fields with
  | nil =>
    intro m k
    cases h : dlookup m k with
    | none => simp [h]
    | some v => simp [h, List.contains]
  | cons f rest ih =>
    intro m k
    rw [List.foldl_cons, ih (maskStep m f) k]
    by_cases hk : k = f
    · subst hk
      cases hv : dlookup m k with
      | none =>
        rw [maskStep_of_absent m k hv, hv]
      | some v =>
        rw [dlookup_maskStep_self m k v hv]
        cases hrest : rest.contains k with
        | true => simp [hrest, pyStr_str, stars_length]
        | false => simp [hrest, pyStr_str, stars_length]
    · rw [dlookup_maskStep_ne m f k hk]
      cases hv : dlookup m k with
      | none => rfl
      | some v =>
        have hkf : (k == f) = false := beq_eq_false_iff_ne.mpr hk
        have hcons : (f :: rest).contains k = rest.contains k := by
          simp [List.contains, List.elem, hkf]
        rw [hcons]

/-- C10: `mask_sensitive_data` returns a dict in which every sensitive field
present in the input is replaced by a string of `'*'` of the length of the
`str()` form of its original value, every other key keeps its original
value, and omitting `sensitive_fields` selects the default list (password,
token, card_number, cvv); the function works on `data.copy()`, so the input
dict is untouched. -/
theorem C10_mask_sensitive_data (data : List (String × Json)) (fields : List String)
    (k : String) :
    (dlookup data k = none → dlookup (mask_sensitive_data data (some fields)) k = none) ∧
    (∀ v, dlookup data k = some v → fields.contains k = true →
        dlookup (mask_sensitive_data data (some fields)) k
          = some (.str (stars (pyStr v).length))) ∧
    (∀ v, dlookup data k = some v → fields.contains k = false →
        dlookup (mask_sensitive_data data (some fields)) k = some v) ∧
    mask_sensitive_data data none = mask_sensitive_data data (some default_sensitive_fields) := by
  have hfold : dlookup (mask_sensitive_data data (some fields)) k =
      match dlookup data k with
      | none => none
      | some v => if fields.contains k then some (.str (stars (pyStr v).length)) else some v :=
    maskFold_lookup fields data k
  refine ⟨fun h => ?_, fun v hv hc => ?_, fun v hv hc => ?_, rfl⟩
  · rw [hfold, h]
  · rw [hfold, hv]
    show (if fields.contains k = true then some (Json.str (stars (pyStr v).length)) else some v)
      = some (Json.str (stars (pyStr v).length))
    rw [if_pos hc]
  · rw [hfold, hv]
    show (if fields.contains k = true then some (Json.str (stars (pyStr v).length)) else some v)
      = some v
    rw [if_neg (by rw [hc]; exact Bool.false_ne_true)]

/-- Witness for C10: the default list masks `password` to seven asterisks
and leaves `user` untouched. -/
theorem C10_mask_sensitive_data_witness :
    dlookup (mask_sensitive_data [("password", .str "hunter2"), ("user", .str "bob")])
        "password" = some (.str "*******") ∧
    dlookup (mask_sensitive_data [("password", .str "hunter2"), ("user", .str "bob")])
        "user" = some (.str "bob") := by
  constructor
  · rw [(C10_mask_sensitive_data [("password", .str "hunter2"), ("user", .str "bob")]
      default_sensitive_fields "password").2.2.2]
    rw [(C10_mask_sensitive_data [("password", .str "hunter2"), ("user", .str "bob")]
      default_sensitive_fields "password").2.1 (.str "hunter2") rfl (by decide)]
    rw [pyStr_str]
    rfl
  · rw [(C10_mask_sensitive_data [("password", .str "hunter2"), ("user", .str "bob")]
      default_sensitive_fields "user").2.2.2]
    rw [(C10_mask_sensitive_data [("password", .str "hunter2"), ("user", .str "bob")]
      default_sensitive_fields "user").2.2.1 (.str "bob") rfl (by decide)]
